import Mathlib

/-!
Verification of the TB inference service orchestration layer
(`backend/cloud-backend/inference-service/app`): the claim protocol
(`firestore_repo.py`), audio-reference resolution (`storage.py`), feature
extraction, risk fusion, tier mapping, rule-based actions and summary
sanitisation (`inference_pipeline.py`), and the request handler (`main.py`).

Python floats are modelled as rationals (`ℚ`); Python/Firestore values are
modelled by the inductive type `PyVal`; dictionaries are association lists.
Fallible Python code is modelled with `Except String`.
-/

set_option maxRecDepth 4000

/-- A Python/Firestore value: `None`, bool, int, float (as `ℚ`), string,
list, or string-keyed dict (association list). -/
inductive PyVal where
  | none
  | bool (b : Bool)
  | int (n : ℤ)
  | float (q : ℚ)
  | str (s : String)
  | list (xs : List PyVal)
  | dict (kvs : List (String × PyVal))
deriving Repr

/-- A document (Python dict with string keys), e.g. a Firestore patient doc. -/
abbrev Doc := List (String × PyVal)

/-- First value bound to key `k`, like Python `d[k]` lookup. -/
def dictGet : Doc → String → Option PyVal
  | [], _ => Option.none
  | (k, v) :: rest, key => if k = key then some v else dictGet rest key

/-- Python `d.get(k)`: missing keys give `None`. -/
def dictGetV (d : Doc) (k : String) : PyVal :=
  (dictGet d k).getD PyVal.none

/-- Python `d.get(k, default)`. -/
def dictGetD (d : Doc) (k : String) (default : PyVal) : PyVal :=
  (dictGet d k).getD default

/-- Set key `k` to `v`: replace the first binding, or append if absent. -/
def dictSet : Doc → String → PyVal → Doc
  | [], key, v => [(key, v)]
  | (k, w) :: rest, key, v =>
    if k = key then (k, v) :: rest else (k, w) :: dictSet rest key v

/-- Remove every binding of key `k` (models Firestore `DELETE_FIELD`). -/
def dictDelAll (d : Doc) (key : String) : Doc :=
  d.filter (fun kv => kv.1 ≠ key)

/-- `x if isinstance(x, dict) else {}`. -/
def asDict : PyVal → Doc
  | .dict kvs => kvs
  | _ => []

/-- `x if isinstance(x, list) else []`. -/
def asList : PyVal → List PyVal
  | .list xs => xs
  | _ => []

/-- Python truthiness of a value. -/
def pyTruthy : PyVal → Bool
  | .none => false
  | .bool b => b
  | .int n => n ≠ 0
  | .float q => q ≠ 0
  | .str s => s ≠ ""
  | .list xs => !xs.isEmpty
  | .dict kvs => !kvs.isEmpty

/-- Python `value == s` for a string literal `s`: true only for an equal
string (a non-string value never equals a string). -/
def pyEqStr (v : PyVal) (s : String) : Bool :=
  match v with
  | .str t => t = s
  | _ => false

/-- The rational `n / d` written with the kernel-reducible `Rat.divInt`
(the library `+ * / -` on `ℚ` are irreducible); used for decimal float
literals of the source such as `0.70`. -/
def ratOf (n d : ℤ) : ℚ := Rat.divInt n d

/-- Python `str.strip()` (kernel-reducible replacement for `String.trim`). -/
def strTrim (s : String) : String :=
  String.mk ((s.toList.dropWhile Char.isWhitespace).reverse.dropWhile
    Char.isWhitespace).reverse

/-- Python `str.lower()` (ASCII). -/
def strToLower (s : String) : String :=
  String.mk (s.toList.map Char.toLower)

/-- Python `str.upper()` (ASCII). -/
def strToUpper (s : String) : String :=
  String.mk (s.toList.map Char.toUpper)

/-- Python `s.startswith(pre)`. -/
def strStartsWith (s pre : String) : Bool :=
  pre.toList.isPrefixOf s.toList

/-- Python `s[:n]` (by characters). -/
def strTake (s : String) (n : ℕ) : String :=
  String.mk (s.toList.take n)

/-- Python `sep.join(l)`. -/
def strJoin (sep : String) : List String → String
  | [] => ""
  | [x] => x
  | x :: xs => x ++ sep ++ strJoin sep xs

/-- Python `s.split(sep)` for a single separator character: every
occurrence separates, adjacent separators give empty pieces. -/
def splitOnCharGo (sep : Char) : List Char → List (List Char)
  | [] => [[]]
  | c :: rest =>
    match splitOnCharGo sep rest with
    | [] => [[c]]
    | g :: gs => if c = sep then [] :: g :: gs else (c :: g) :: gs

/-- `s.split(sep)` on strings. -/
def splitOnChar (sep : Char) (s : String) : List String :=
  (splitOnCharGo sep s.toList).map String.mk

/-- Split at every character satisfying `p` (used for `re.split` over a
character class; empty pieces are produced at adjacent separators). -/
def splitAnyGo (p : Char → Bool) : List Char → List (List Char)
  | [] => [[]]
  | c :: rest =>
    match splitAnyGo p rest with
    | [] => [[c]]
    | g :: gs => if p c then [] :: g :: gs else (c :: g) :: gs

/-- `re.split` over a character class, on strings. -/
def splitAny (p : Char → Bool) (s : String) : List String :=
  (splitAnyGo p s.toList).map String.mk

/-- Python `s.replace(pat, repl)`: left-to-right, non-overlapping
(callers never pass an empty pattern; an empty pattern returns `s`). -/
def replaceSubGo (pat repl : List Char) : ℕ → List Char → List Char
  | 0, cs => cs
  | _ + 1, [] => []
  | fuel + 1, c :: rest =>
    if pat.isPrefixOf (c :: rest) then
      repl ++ replaceSubGo pat repl fuel ((c :: rest).drop pat.length)
    else c :: replaceSubGo pat repl fuel rest

/-- `s.replace(pat, repl)` on strings. -/
def replaceSub (s pat repl : String) : String :=
  if pat.toList.isEmpty then s
  else String.mk (replaceSubGo pat.toList repl.toList (s.toList.length + 1) s.toList)


/-- Terminating-decimal representation of a rational, used by `floatRepr`.
Searches for the least `k ≤ 30` with `q·10^k` integral. -/
def ratDecimalStr (q : ℚ) : String :=
  match (List.range 31).find? (fun k => 10 ^ k % q.den = 0) with
  | some k =>
    if k = 0 then toString q.num ++ ".0"
    else
      let n : ℤ := q.num * ((10 ^ k) / q.den : ℕ)
      let sgn := if n < 0 then "-" else ""
      let m := n.natAbs
      sgn ++ toString (m / 10 ^ k) ++ "." ++
        (let frac := toString (m % 10 ^ k)
         String.mk (List.replicate (k - frac.toList.length) '0') ++ frac)
  | Option.none => toString q.num ++ "/" ++ toString q.den

/-- Python `repr`/`str` of a float value (exact for terminating decimals). -/
def floatRepr (q : ℚ) : String := ratDecimalStr q

mutual
/-- Python `repr(v)` (strings quoted; containers rendered recursively). -/
def pyRepr : PyVal → String
  | .none => "None"
  | .bool b => if b then "True" else "False"
  | .int n => toString n
  | .float q => floatRepr q
  | .str s => "\x27" ++ s ++ "\x27"
  | .list xs => "[" ++ String.intercalate ", " (pyReprList xs) ++ "]"
  | .dict kvs => "\x7b" ++ String.intercalate ", " (pyReprDict kvs) ++ "\x7d"

def pyReprList : List PyVal → List String
  | [] => []
  | v :: rest => pyRepr v :: pyReprList rest

def pyReprDict : List (String × PyVal) → List String
  | [] => []
  | (k, v) :: rest => ("\x27" ++ k ++ "\x27: " ++ pyRepr v) :: pyReprDict rest
end

/-- Python `str(v)`: identity on strings, `repr` otherwise. -/
def pyStr : PyVal → String
  | .str s => s
  | v => pyRepr v

/-- Value of a digit string (most significant first). -/
def digitsToNat (ds : List Char) : ℕ :=
  ds.foldl (fun a c => a * 10 + (c.toNat - 48)) 0

/-- Python `float(s)` on a string: parses `[sign] digits [. digits]
[(e|E) [sign] digits]` (whitespace-stripped); returns `none` when the
string is not such a literal (Python raises `ValueError`). -/
def parseFloatQ (s : String) : Option ℚ :=
  let cs := (strTrim s).toList
  let (sgn, cs) := match cs with
    | '-' :: rest => ((-1 : ℤ), rest)
    | '+' :: rest => ((1 : ℤ), rest)
    | _ => ((1 : ℤ), cs)
  let intDigits := cs.takeWhile Char.isDigit
  let cs := cs.drop intDigits.length
  let (fracDigits, cs) :=
    match cs with
    | '.' :: rest => (rest.takeWhile Char.isDigit, rest.drop (rest.takeWhile Char.isDigit).length)
    | _ => ([], cs)
  if intDigits.length + fracDigits.length = 0 then Option.none
  else
    let mantissa : ℕ := digitsToNat (intDigits ++ fracDigits)
    let baseNum : ℤ := sgn * mantissa
    let baseDen : ℕ := 10 ^ fracDigits.length
    match cs with
    | [] => some (Rat.divInt baseNum baseDen)
    | e :: rest =>
      if e = 'e' ∨ e = 'E' then
        let (epos, rest) := match rest with
          | '-' :: r => (false, r)
          | '+' :: r => (true, r)
          | _ => (true, rest)
        let expDigits := rest.takeWhile Char.isDigit
        let tail := rest.drop expDigits.length
        if expDigits.length = 0 ∨ ¬ tail.isEmpty then Option.none
        else
          let e10 : ℕ := digitsToNat expDigits
          if epos then some (Rat.divInt (baseNum * 10 ^ e10) baseDen)
          else some (Rat.divInt baseNum (baseDen * 10 ^ e10))
      else Option.none

/-- Python `str.capitalize()`: first character upper-cased, rest lower-cased. -/
def capitalizePy (s : String) : String :=
  match s.toList with
  | [] => ""
  | c :: rest => String.mk (c.toUpper :: rest.map Char.toLower)

/-- Substring containment (Python `needle in haystack`), on char lists. -/
def subListOf (needle haystack : List Char) : Bool :=
  match haystack with
  | [] => needle.isEmpty
  | _ :: t => needle.isPrefixOf haystack || subListOf needle t

/-- Python `needle in haystack` for strings. -/
def containsSub (haystack needle : String) : Bool :=
  subListOf needle.toList haystack.toList

/-- `re.sub(r"[^a-z0-9]", "", s)`: keep only lowercase ASCII letters/digits. -/
def stripNonAlnum (s : String) : String :=
  String.mk (s.toList.filter (fun c => c.isDigit || (c ≥ 'a' && c ≤ 'z')))

/-- Python `s.lstrip("/")`: drop all leading slashes. -/
def lstripSlash (s : String) : String :=
  String.mk (s.toList.dropWhile (fun c => c = '/'))

/-- Hex digit value. -/
def hexVal (c : Char) : Option ℕ :=
  if c.isDigit then some (c.toNat - 48)
  else if c ≥ 'a' ∧ c ≤ 'f' then some (c.toNat - 87)
  else if c ≥ 'A' ∧ c ≤ 'F' then some (c.toNat - 55)
  else Option.none

/-- `urllib.parse.unquote`: percent-decoding, one pass; invalid escapes are
kept verbatim. Decoding is modelled at code-point level (exact for ASCII;
a multi-byte UTF-8 escape sequence decodes to one char per byte). -/
def unquoteChars : List Char → List Char
  | [] => []
  | '%' :: h1 :: h2 :: rest =>
    match hexVal h1, hexVal h2 with
    | some a, some b => Char.ofNat (16 * a + b) :: unquoteChars rest
    | _, _ => '%' :: unquoteChars (h1 :: h2 :: rest)
  | c :: rest => c :: unquoteChars rest

/-- `urllib.parse.unquote` on strings. -/
def unquote (s : String) : String :=
  String.mk (unquoteChars s.toList)

/-- Round-half-even of `x · s` to an integer (the rounding used by
Python `round` and the `f"{x:.2f}"` format), computed with integer
division so it kernel-reduces. -/
def roundHalfEvenScaled (x : ℚ) (s : ℕ) : ℤ :=
  let n : ℤ := x.num * s
  let d : ℤ := (x.den : ℤ)
  let q := Int.ediv n d
  let r := Int.emod n d
  if 2 * r < d then q
  else if 2 * r > d then q + 1
  else if q % 2 = 0 then q else q + 1

/-- Two-digit zero-padded decimal string. -/
def pad2 (n : ℕ) : String :=
  if n < 10 then "0" ++ toString n else toString n

/-- Python `f"{x:.2f}"` on the rational model of a float. -/
def format2 (x : ℚ) : String :=
  let n := roundHalfEvenScaled x 100
  let (sgn, m) := if n < 0 then ("-", n.natAbs) else ("", n.natAbs)
  sgn ++ toString (m / 100) ++ "." ++ pad2 (m % 100)

/-- Python `round(x, 4)` (round-half-even at 4 decimal places). -/
def round4 (x : ℚ) : ℚ :=
  Rat.divInt (roundHalfEvenScaled x 10000) 10000

/-- Python `int(x)` on a float: truncation toward zero. -/
def truncInt (x : ℚ) : ℤ :=
  Int.tdiv x.num (x.den : ℤ)

/-- `_to_upper` from `inference_pipeline.py`:
`str(value).strip().upper() if value is not None else ""`. -/
def pyToUpper (v : PyVal) : String :=
  match v with
  | .none => ""
  | v => strToUpper (strTrim (pyStr v))

/-- `_normalize_answer` from `inference_pipeline.py`. -/
def normalizeAnswer (v : PyVal) : String :=
  let s := match v with
    | .none => ""
    | v => strToLower (strTrim (pyStr v))
  if s = "yes" ∨ s = "y" ∨ s = "true" ∨ s = "1" then "yes"
  else if s = "no" ∨ s = "n" ∨ s = "false" ∨ s = "0" then "no"
  else "missing"

/-- `_is_yes` from `inference_pipeline.py`:
`str(value).strip().upper() in {"YES", "Y", "TRUE", "1"}`. -/
def isYes (v : PyVal) : Bool :=
  let s := strToUpper (strTrim (pyStr v))
  s = "YES" ∨ s = "Y" ∨ s = "TRUE" ∨ s = "1"

/-- Python `float(value)`: succeeds on numbers, bools and numeric strings;
raises (`.error`) on other types and non-numeric strings. -/
def pyFloat (v : PyVal) : Except String ℚ :=
  match v with
  | .none => .error "float() argument must be a string or a real number, not NoneType"
  | .bool b => .ok (if b then 1 else 0)
  | .int n => .ok (n : ℚ)
  | .float q => .ok q
  | .str s =>
    match parseFloatQ s with
    | some q => .ok q
    | Option.none => .error ("could not convert string to float: " ++ s)
  | .list _ => .error "float() argument must be a string or a real number, not list"
  | .dict _ => .error "float() argument must be a string or a real number, not dict"

/-- `_safe_float` from `inference_pipeline.py`: `None` for `None` or any
value `float()` rejects (the `try/except` swallows the error). -/
def safeFloat (v : PyVal) : Option ℚ :=
  match v with
  | .none => Option.none
  | v => (pyFloat v).toOption

/-- `_risk_level` from `inference_pipeline.py`: the pinned threshold ladder. -/
def riskLevel (score : ℚ) : String :=
  if score ≥ ratOf 70 100 then "HIGH"
  else if score ≥ ratOf 40 100 then "MEDIUM"
  else "LOW"

/-- The Firestore update applied by `mark_processing_if_needed` when it
claims a record: dotted-path update setting `ai.model_version`,
`ai.inference_status`, `ai.processing_started_at` and deleting
`ai.error_message` (`now` stands for `firestore.SERVER_TIMESTAMP`). -/
def claimUpdate (d : Doc) (target : String) (now : PyVal) : Doc :=
  let ai := asDict (dictGetV d "ai")
  let ai := dictSet ai "model_version" (.str target)
  let ai := dictSet ai "inference_status" (.str "PROCESSING")
  let ai := dictSet ai "processing_started_at" now
  let ai := dictDelAll ai "error_message"
  dictSet d "ai" (.dict ai)

/-- `mark_processing_if_needed` from `firestore_repo.py`, as a function of
the stored record (`Option Doc`): returns the `{"status", "doc"}` result
pair and the post-transaction stored record. -/
def markProcessingIfNeeded (store : Option Doc) (target : String) (now : PyVal) :
    (String × Option Doc) × Option Doc :=
  match store with
  | Option.none => (("NOT_FOUND", Option.none), Option.none)
  | some d =>
    let ai := asDict (dictGetV d "ai")
    if pyEqStr (dictGetV ai "model_version") target &&
        pyEqStr (dictGetV ai "inference_status") "SUCCESS" then
      (("SKIP_ALREADY_DONE", some d), some d)
    else if pyEqStr (dictGetV ai "model_version") target &&
        pyEqStr (dictGetV ai "inference_status") "PROCESSING" then
      (("SKIP_IN_PROGRESS", some d), some d)
    else
      (("PROCESSING_CLAIMED", some d), some (claimUpdate d target now))

/-- The success payload produced by `run_tb_inference` and consumed by
`write_success` (keys of the returned dict, floats as `ℚ`). -/
structure SuccessPayload where
  hear_score : ℚ
  risk_score : ℚ
  risk_level : String
  medgemini_summary_en : String
  medgemini_summary_hi : String
  action_items_en : List String
  action_items_hi : List String
  actions_source : String
  model_version : String
  clinical_score : ℚ
deriving Repr

/-- `write_success` from `firestore_repo.py`: the dotted-path update on the
patient document (`now` stands for `firestore.SERVER_TIMESTAMP`). -/
def writeSuccess (d : Doc) (p : SuccessPayload) (now : PyVal) : Doc :=
  let ai := asDict (dictGetV d "ai")
  let ai := dictSet ai "hear_score" (.float p.hear_score)
  let ai := dictSet ai "risk_score" (.float p.risk_score)
  let ai := dictSet ai "risk_level" (.str p.risk_level)
  let ai := dictSet ai "medgemini_summary_en" (.str p.medgemini_summary_en)
  let ai := dictSet ai "medgemini_summary_hi" (.str p.medgemini_summary_hi)
  let ai := dictSet ai "medgemini_summary_i18n"
    (.dict [("en", .str p.medgemini_summary_en), ("hi", .str p.medgemini_summary_hi)])
  let ai := dictSet ai "medgemini_summary" (.str p.medgemini_summary_en)
  let ai := dictSet ai "generated_at" now
  let ai := dictSet ai "model_version" (.str p.model_version)
  let ai := dictSet ai "inference_status" (.str "SUCCESS")
  let ai := dictDelAll ai "error_message"
  dictSet d "ai" (.dict ai)

/-- `write_failure` from `firestore_repo.py`: merge-set of the `ai` fields,
with `error_message` truncated to 2000 characters. -/
def writeFailure (d : Doc) (modelVersion errorMessage : String) (now : PyVal) : Doc :=
  let ai := asDict (dictGetV d "ai")
  let ai := dictSet ai "model_version" (.str modelVersion)
  let ai := dictSet ai "inference_status" (.str "FAILED")
  let ai := dictSet ai "error_message" (.str (strTake errorMessage 2000))
  let ai := dictSet ai "generated_at" now
  dictSet d "ai" (.dict ai)

/-- A resolved audio location (`storage.py`): bucket and object path. -/
structure AudioLocation where
  bucket : String
  blob_path : String
deriving Repr, DecidableEq

/-- `urllib.parse.urlparse` restricted to `scheme://netloc/path` inputs (the
only shapes reaching it in `storage.py`): returns (scheme lower-cased,
netloc, path), with query (`?`) and fragment (`#`) stripped from the path. -/
def urlSplit (s : String) : String × String × String :=
  match subListOf "://".toList s.toList with
  | false => ("", "", s)
  | true =>
    let cs := s.toList
    let scheme := cs.takeWhile (fun c => c ≠ ':')
    let rest := (cs.drop (scheme.length + 3))
    let netloc := rest.takeWhile (fun c => c ≠ '/' ∧ c ≠ '?' ∧ c ≠ '#')
    let after := rest.drop netloc.length
    let path := after.takeWhile (fun c => c ≠ '?' ∧ c ≠ '#')
    (strToLower (String.mk scheme), String.mk netloc, String.mk path)

/-- `_from_gs_uri` from `storage.py`. -/
def fromGsUri (uri : String) : Option AudioLocation :=
  let (scheme, netloc, path) := urlSplit uri
  if scheme ≠ "gs" then Option.none
  else some { bucket := netloc, blob_path := lstripSlash path }

/-- Split a string at the first occurrence of a character
(Python `s.split(c, 1)` when `c` occurs). -/
def splitOnceAt (c : Char) (s : String) : Option (String × String) :=
  let cs := s.toList
  let before := cs.takeWhile (fun x => x ≠ c)
  if before.length = cs.length then Option.none
  else some (String.mk before, String.mk (cs.drop (before.length + 1)))

/-- `_from_storage_googleapis_url` from `storage.py`. -/
def fromStorageGoogleapisUrl (url : String) : Option AudioLocation :=
  let (_, netloc, path0) := urlSplit url
  if netloc ≠ "storage.googleapis.com" then Option.none
  else
    let path := lstripSlash path0
    match splitOnceAt '/' path with
    | Option.none => Option.none
    | some (bucket, blobPath) => some { bucket := bucket, blob_path := blobPath }

/-- `_from_firebase_download_url` from `storage.py`: picks the `b` and `o`
path segments, joins the remainder and percent-decodes it once. -/
def fromFirebaseDownloadUrl (url : String) : Option AudioLocation :=
  let (_, netloc, path) := urlSplit url
  if ¬ containsSub netloc "firebasestorage.googleapis.com" then Option.none
  else
    let parts := splitOnChar '/' path
    match parts.indexOf? "b", parts.indexOf? "o" with
    | some bIdx, some oIdx =>
      if parts.length ≤ bIdx + 1 ∨ parts.length ≤ oIdx + 1 then Option.none
      else
        let bucket := parts.getD (bIdx + 1) ""
        let encodedBlob := String.intercalate "/" (parts.drop (oIdx + 1))
        some { bucket := bucket, blob_path := unquote encodedBlob }
    | _, _ => Option.none

/-- `resolve_audio_location` from `storage.py`; `defaultBucket` is
`settings.storage_bucket`. -/
def resolveAudioLocation (defaultBucket : String) (entry : Doc) : Option AudioLocation :=
  let a := dictGetV entry "storage_uri"
  let rawUri := if pyTruthy a then a else dictGetV entry "storage_path"
  if ¬ pyTruthy rawUri then Option.none
  else
    match rawUri with
    | .str s =>
      if strStartsWith s "gs://" then fromGsUri s
      else if strStartsWith s "http://" || strStartsWith s "https://" then
        match fromStorageGoogleapisUrl s with
        | some loc => some loc
        | Option.none => fromFirebaseDownloadUrl s
      else some { bucket := defaultBucket, blob_path := lstripSlash s }
    | _ => Option.none

/-- `collect_audio_locations` from `storage.py`: resolve each dict entry of
the `audio` list, keeping non-null locations with non-empty path. -/
def collectAudioLocations (defaultBucket : String) (patientDoc : Doc) : List AudioLocation :=
  let audioEntries := match dictGetD patientDoc "audio" (.list []) with
    | .list xs => xs
    | _ => []
  audioEntries.foldr
    (fun entry acc =>
      match entry with
      | .dict kvs =>
        match resolveAudioLocation defaultBucket kvs with
        | some loc => if loc.blob_path ≠ "" then loc :: acc else acc
        | Option.none => acc
      | _ => acc)
    []

/-- `download_audio_files` from `storage.py`, with the blob download as an
oracle `dl` (false = the GCS download raises) and `names` supplying the
`tempfile.mkstemp` paths. Returns the temp files actually created (mkstemp
runs before each download) and either the full path list or the first
download error; a failure leaves the earlier temp files created. -/
def downloadFilesGo (dl : AudioLocation → Bool) (names : List String)
    (created : List String) : List AudioLocation → List String × Except String (List String)
  | [] => (created, .ok created)
  | loc :: rest =>
    let n := names.headD "/tmp/airway.wav"
    let created2 := created ++ [n]
    if dl loc then downloadFilesGo dl names.tail created2 rest
    else (created2, .error ("failed to download gs://" ++ loc.bucket ++ "/" ++ loc.blob_path))

/-- `download_audio_files`: top-level wrapper. -/
def downloadAudioFiles (dl : AudioLocation → Bool) (names : List String)
    (locs : List AudioLocation) : List String × Except String (List String) :=
  downloadFilesGo dl names [] locs

/-- The flat feature set built by `_extract_patient_features`
(`patient_dict` in the source). Numeric fields use `Option ℚ` with
`Option.none` playing the role of the `np.nan` sentinel. -/
structure PatientFeatures where
  age : Option ℚ
  height : Option ℚ
  weight : Option ℚ
  reported_cough_dur : Option ℚ
  heart_rate : Option ℚ
  temperature : Option ℚ
  n_recordings : ℚ
  n_cough_windows_total : ℚ
  sex : String
  tb_prior : String
  tb_prior_Pul : String
  tb_prior_Extrapul : String
  tb_prior_Unknown : String
  hemoptysis : String
  weight_loss : String
  smoke_lweek : String
  fever : String
  night_sweats : String
deriving Repr, DecidableEq

/-- One numeric field of the patient dict:
`float(x) if x is not None else np.nan`. A present value that `float()`
rejects propagates the error. -/
def numField (v : PyVal) : Except String (Option ℚ) :=
  match v with
  | .none => .ok Option.none
  | v => (pyFloat v).map some

/-- `yes_no_missing` (local helper in `_extract_patient_features`). -/
def yesNoMissing (v : String) : String :=
  if v = "yes" then "Yes" else if v = "no" then "No" else "Missing"

/-- `_extract_patient_features` from `inference_pipeline.py`. Mirrors the
source including its raising `float(...)` coercions: a present numeric
field whose value `float()` rejects makes the whole extraction fail. -/
def extractPatientFeatures (patientDoc : Doc) : Except String PatientFeatures := do
  let demographics := asDict (dictGetV patientDoc "demographics")
  let vitals := asDict (dictGetV patientDoc "vitals")
  let clinical := asDict (dictGetV patientDoc "clinical")
  let answers := asDict (dictGetV clinical "risk_factor_answers")
  let historyTb := normalizeAnswer (dictGetV answers "historyOfTB")
  let smoker := normalizeAnswer (dictGetV answers "smoker")
  let weightLoss0 := normalizeAnswer (dictGetV clinical "weight_loss")
  let weightLossAnswer :=
    if weightLoss0 = "missing" then normalizeAnswer (dictGetV answers "weightLoss")
    else weightLoss0
  let nightSweats0 := normalizeAnswer (dictGetV clinical "night_sweats")
  let nightSweatsAnswer :=
    if nightSweats0 = "missing" then normalizeAnswer (dictGetV answers "nightSweats")
    else nightSweats0
  let feverHistory := pyToUpper (dictGetV clinical "fever_history")
  let coughNature := pyToUpper (dictGetV clinical "cough_nature")
  let gender := strToLower (strTrim (pyStr (dictGetD demographics "gender" (.str "other"))))
  let sex := if gender = "other" then "Missing" else capitalizePy gender
  let age ← numField (dictGetV demographics "age")
  let height ← numField (dictGetV vitals "height_cm")
  let weight ← numField (dictGetV vitals "weight_kg")
  let reportedCoughDur ← numField (dictGetV clinical "cough_duration_days")
  let heartRate ← numField (dictGetV clinical "heart_rate_bpm")
  let temperature ← numField (dictGetV clinical "body_temperature_c")
  return {
    age := age
    height := height
    weight := weight
    reported_cough_dur := reportedCoughDur
    heart_rate := heartRate
    temperature := temperature
    n_recordings := 1
    n_cough_windows_total := 1
    sex := sex
    tb_prior := if historyTb = "yes" then "Yes" else "No"
    tb_prior_Pul := "Missing"
    tb_prior_Extrapul := "Missing"
    tb_prior_Unknown := if historyTb = "yes" then "Yes" else "Missing"
    hemoptysis := if coughNature = "BLOOD_STAINED" then "Yes" else "No"
    weight_loss := yesNoMissing weightLossAnswer
    smoke_lweek := yesNoMissing smoker
    fever := if feverHistory = "" ∨ feverHistory = "NONE" then "No" else "Yes"
    night_sweats := yesNoMissing nightSweatsAnswer }

/-- Urgent-referral action, English (`_build_rule_actions`). -/
def urgentReferralEn : String :=
  "Red-flag symptoms are present. Refer the patient urgently to the nearest PHC/CHC or district hospital today."

/-- Urgent-referral action, Hindi. -/
def urgentReferralHi : String :=
  "उच्च-जोखिम लक्षण मौजूद हैं। मरीज को आज ही निकटतम PHC/CHC या जिला अस्पताल में तुरंत रेफर करें।"

/-- HIGH-tier action block, English. -/
def highActionsEn : List String :=
  [ "Arrange same-day TB diagnostic testing (sputum + NAAT/Truenat/Xpert as per facility protocol) at the nearest government center.",
    "Until evaluation, use source control: wear a mask, follow cough etiquette, and keep rooms well ventilated.",
    "Prioritize this case in the testing queue and ensure ASHA follow-up call the same day." ]

/-- HIGH-tier action block, Hindi. -/
def highActionsHi : List String :=
  [ "निकटतम सरकारी केंद्र में आज ही टीबी जांच (थूक + NAAT/Truenat/Xpert, सुविधा प्रोटोकॉल अनुसार) कराएं।",
    "जांच तक स्रोत-नियंत्रण अपनाएं: मास्क पहनें, खांसी शिष्टाचार रखें और कमरे में पर्याप्त हवा/वेंटिलेशन रखें।",
    "इस केस को जांच कतार में प्राथमिकता दें और ASHA द्वारा उसी दिन फॉलो-अप कॉल सुनिश्चित करें।" ]

/-- MEDIUM-tier action block, English. -/
def mediumActionsEn : List String :=
  [ "Schedule TB diagnostic testing within 24-48 hours at the nearest PHC/TU.",
    "Continue mask use and cough hygiene, and reduce close indoor contact with children, elderly, or immunocompromised family members.",
    "If symptoms worsen (especially blood in sputum, persistent fever, or breathlessness), escalate to urgent referral." ]

/-- MEDIUM-tier action block, Hindi. -/
def mediumActionsHi : List String :=
  [ "निकटतम PHC/TU में 24-48 घंटों के भीतर टीबी जांच की व्यवस्था करें।",
    "मास्क और खांसी शिष्टाचार जारी रखें, तथा बच्चों, बुजुर्गों और कम प्रतिरक्षा वाले परिवारजनों से नजदीकी बंद संपर्क कम करें।",
    "यदि लक्षण बढ़ें (खासतौर पर खून वाली खांसी, लगातार बुखार, या सांस फूलना), तो तुरंत रेफरल करें।" ]

/-- LOW-tier action block, English. -/
def lowActionsEn : List String :=
  [ "Maintain symptom monitoring and ASHA follow-up; re-evaluate promptly if cough persists for 2 weeks or more.",
    "Keep cough hygiene and household ventilation practices active.",
    "If blood in sputum, persistent fever, weight loss, or night sweats are present, move to fast-track TB testing." ]

/-- LOW-tier action block, Hindi. -/
def lowActionsHi : List String :=
  [ "लक्षणों की निगरानी और ASHA फॉलो-अप जारी रखें; यदि खांसी 2 सप्ताह या अधिक रहे तो तुरंत पुनर्मूल्यांकन करें।",
    "खांसी शिष्टाचार और घर में वेंटिलेशन की आदतें जारी रखें।",
    "यदि खून वाली खांसी, लगातार बुखार, वजन घटना या रात में पसीना हो, तो टीबी जांच को फास्ट-ट्रैक करें।" ]

/-- Persistent-cough conditional append, English. -/
def longCoughEn : String :=
  "Persistent cough for 2 weeks or more warrants presumptive TB work-up as per program guidance."

/-- Persistent-cough conditional append, Hindi. -/
def longCoughHi : String :=
  "2 सप्ताह या अधिक की लगातार खांसी में कार्यक्रम दिशानिर्देश अनुसार संभावित टीबी की जांच करें।"

/-- Document-vitals conditional append, English. -/
def documentVitalsEn : String :=
  "Document fever/weight-loss/night-sweats in referral notes to support faster triage at facility level."

/-- Document-vitals conditional append, Hindi. -/
def documentVitalsHi : String :=
  "फीवर/वजन घटना/रात में पसीना रेफरल नोट में लिखें ताकि केंद्र स्तर पर तेज ट्रायेज हो सके।"

/-- The `has_blood` flag of `_build_rule_actions` after the legacy-symptom
fallback: blood-stained cough nature, or a legacy `HEMOPTYSIS` symptom code. -/
def hasBloodFlag (patientDoc : Doc) : Bool :=
  let clinical := asDict (dictGetV patientDoc "clinical")
  let symptoms := asList (dictGetV patientDoc "symptoms")
  let coughNature := pyToUpper (dictGetV clinical "cough_nature")
  let symptomCodes := symptoms.filterMap (fun item =>
    match item with
    | .dict kvs => some (strToUpper (strTrim (pyStr (dictGetD kvs "symptom_code" (.str "")))))
    | _ => Option.none)
  coughNature = "BLOOD_STAINED" || symptomCodes.contains "HEMOPTYSIS"

/-- The `has_short_breath` flag of `_build_rule_actions`: a normalized
shortness-of-breath tag among the string entries of
`clinical.physical_signs`. -/
def hasShortBreathFlag (patientDoc : Doc) : Bool :=
  let clinical := asDict (dictGetV patientDoc "clinical")
  let physicalSigns := asList (dictGetV clinical "physical_signs")
  let signs := physicalSigns.filterMap (fun item =>
    match item with
    | .str s => some (strToLower (strTrim s))
    | _ => Option.none)
  signs.any (fun s => stripNonAlnum s = "shortnessofbreath")

/-- The `red_flag` condition of `_build_rule_actions`. -/
def redFlagOf (patientDoc : Doc) : Bool :=
  hasBloodFlag patientDoc || hasShortBreathFlag patientDoc

/-- `_build_rule_actions` from `inference_pipeline.py`: the deterministic
bilingual action lists (English, Hindi). -/
def buildRuleActions (patientDoc : Doc) (finalScore : ℚ) : List String × List String :=
  let level := riskLevel finalScore
  let clinical := asDict (dictGetV patientDoc "clinical")
  let coughDays := safeFloat (dictGetV clinical "cough_duration_days")
  let highTempC := safeFloat (dictGetV clinical "body_temperature_c")
  let weightLoss := isYes (dictGetV clinical "weight_loss")
  let nightSweats := isYes (dictGetV clinical "night_sweats")
  let hasHighFever := match highTempC with
    | some t => decide (t ≥ ratOf 77 2)
    | Option.none => false
  let hasLongCough0 := match coughDays with
    | some c => decide (c ≥ 14)
    | Option.none => false
  let symptoms := asList (dictGetV patientDoc "symptoms")
  let symptomCodes := symptoms.filterMap (fun item =>
    match item with
    | .dict kvs => some (strToUpper (strTrim (pyStr (dictGetD kvs "symptom_code" (.str "")))))
    | _ => Option.none)
  let hasLongCough := hasLongCough0 ||
    (symptomCodes.contains "COUGH" && coughDays.isNone)
  let redFlag := redFlagOf patientDoc
  let (en0, hi0) :=
    if redFlag then ([urgentReferralEn], [urgentReferralHi]) else ([], [])
  let (en1, hi1) :=
    if level = "HIGH" then (en0 ++ highActionsEn, hi0 ++ highActionsHi)
    else if level = "MEDIUM" then (en0 ++ mediumActionsEn, hi0 ++ mediumActionsHi)
    else (en0 ++ lowActionsEn, hi0 ++ lowActionsHi)
  let (en2, hi2) :=
    if hasLongCough && !(en1.any (fun item => containsSub item "2 weeks")) then
      (en1 ++ [longCoughEn], hi1 ++ [longCoughHi])
    else (en1, hi1)
  let (en3, hi3) :=
    if hasHighFever || weightLoss || nightSweats then
      (en2 ++ [documentVitalsEn], hi2 ++ [documentVitalsHi])
    else (en2, hi2)
  (en3.take 5, hi3.take 5)

/-- Match `unused\d+>` right after a `<`: returns the remainder on success
(helper for `re.sub(r"<unused\d+>", " ", text)`). -/
def matchUnusedTag (cs : List Char) : Option (List Char) :=
  if "unused".toList.isPrefixOf cs then
    let rest := cs.drop 6
    let digs := rest.takeWhile Char.isDigit
    if digs.isEmpty then Option.none
    else
      match rest.drop digs.length with
      | '>' :: tail => some tail
      | _ => Option.none
  else Option.none

/-- `re.sub(r"<unused\d+>", " ", text)` (fuel-driven scan). -/
def stripUnusedGo : ℕ → List Char → List Char
  | 0, cs => cs
  | _ + 1, [] => []
  | fuel + 1, c :: rest =>
    if c = '<' then
      match matchUnusedTag rest with
      | some tail => ' ' :: stripUnusedGo fuel tail
      | Option.none => c :: stripUnusedGo fuel rest
    else c :: stripUnusedGo fuel rest

/-- `re.sub(r"\s+", " ", text)`: collapse whitespace runs to single spaces. -/
def collapseWsGo : ℕ → List Char → List Char
  | 0, cs => cs
  | _ + 1, [] => []
  | fuel + 1, c :: rest =>
    if c.isWhitespace then ' ' :: collapseWsGo fuel (rest.dropWhile Char.isWhitespace)
    else c :: collapseWsGo fuel rest

/-- First index at which `needle` occurs in `haystack`. -/
def findSubIdxGo (needle : List Char) : ℕ → ℕ → List Char → Option ℕ
  | 0, _, _ => Option.none
  | _ + 1, i, [] => if needle.isEmpty then some i else Option.none
  | fuel + 1, i, c :: rest =>
    if needle.isPrefixOf (c :: rest) then some i
    else findSubIdxGo needle fuel (i + 1) rest

/-- First index at which `needle` occurs in `haystack`, if any. -/
def findSubIdx (needle haystack : List Char) : Option ℕ :=
  findSubIdxGo needle (haystack.length + 1) 0 haystack

/-- `re.search(r"<final>(.*?)</final>", text, IGNORECASE|DOTALL)` and the
`text = final_match.group(1).strip()` step: replace the text by the
stripped content of the first (non-greedy) final-tag pair, if one exists. -/
def extractFinalTag (text : String) : String :=
  let cs := text.toList
  let low := cs.map Char.toLower
  match findSubIdx "<final>".toList low with
  | Option.none => text
  | some i =>
    let after := cs.drop (i + 7)
    let lowAfter := low.drop (i + 7)
    match findSubIdx "</final>".toList lowAfter with
    | Option.none => text
    | some j => strTrim (String.mk (after.take j))

/-- The `bad_fragments` tuple of `_clean_llm_output`. -/
def badFragments : List String :=
  [ "thinking process", "chain of thought", "let\x27s think", "reasoning:",
    "analysis:", "step-by-step", "first,", "second,", "third," ]

/-- The reasoning-line filter of `_clean_llm_output`: split on `[\r\n]+`,
keep non-empty stripped lines containing no bad fragment, rejoin. -/
def dropReasoningLines (text : String) : String :=
  let lines := ((splitAny (fun c => c = '\r' || c = '\n') text).map strTrim).filter
    (fun ln => ln ≠ "")
  let lines := lines.filter
    (fun ln => !(badFragments.any (fun b => containsSub (strToLower ln) b)))
  strTrim (String.intercalate " " lines)

/-- Devanagari code-point test (`[ऀ-ॿ]`). -/
def isDevanagariChar (c : Char) : Bool :=
  0x900 ≤ c.toNat ∧ c.toNat ≤ 0x97F

/-- `_contains_devanagari` from `inference_pipeline.py`. -/
def containsDevanagari (text : String) : Bool :=
  text.toList.any isDevanagariChar

/-- The Hindi step of `_clean_llm_output`: keep from the first Devanagari
character on (`re.search(r"[ऀ-ॿ].*", text)`), if any. -/
def keepFromDevanagari (text : String) : String :=
  let cs := text.toList.dropWhile (fun c => ¬ isDevanagariChar c)
  if cs.isEmpty then text else strTrim (String.mk cs)

/-- `re.split(r"(?<=[\.\!\?।])\s+", text)`: split at whitespace runs that
follow a sentence-ending character. `acc` holds the current piece reversed. -/
def sentenceSplitGo : ℕ → List Char → List Char → List (List Char)
  | 0, acc, cs => [acc.reverse ++ cs]
  | _ + 1, acc, [] => [acc.reverse]
  | fuel + 1, acc, c :: rest =>
    if c.isWhitespace &&
        (match acc with
         | p :: _ => p = '.' || p = '!' || p = '?' || p = '।'
         | [] => false) then
      acc.reverse :: sentenceSplitGo fuel [] (rest.dropWhile Char.isWhitespace)
    else sentenceSplitGo fuel (c :: acc) rest

/-- The two-sentence truncation of `_clean_llm_output`. -/
def truncateTwoSentences (text : String) : String :=
  let pieces := sentenceSplitGo (text.toList.length + 1) [] text.toList
  let parts := ((pieces.map (fun l => strTrim (String.mk l))).filter (fun p => p ≠ ""))
  if parts.length > 2 then strTrim (String.intercalate " " (parts.take 2)) else text

/-- `_clean_llm_output` from `inference_pipeline.py`. -/
def cleanLlmOutput (prompt output : String) (language : String) : String :=
  let text := replaceSub output prompt ""
  let text := replaceSub text "<end_of_turn>" ""
  let text := replaceSub text "<start_of_turn>model" ""
  let text := replaceSub text "<start_of_turn>user" ""
  let text := String.mk (stripUnusedGo (text.toList.length + 1) text.toList)
  let text := strTrim (String.mk (collapseWsGo (text.toList.length + 1) text.toList))
  let text := extractFinalTag text
  let text := dropReasoningLines text
  let text := if language = "hi" then keepFromDevanagari text else text
  truncateTwoSentences text

/-- `_fallback_summary_en` from `inference_pipeline.py`. -/
def fallbackSummaryEn (_patientDict : PatientFeatures) (finalScore : ℚ) : String :=
  "The clinical and acoustic features indicate a " ++ strToLower (riskLevel finalScore) ++
    " TB risk profile with final score " ++ format2 finalScore ++
    ". Please correlate with clinical examination and confirmatory testing."

/-- `_fallback_summary_hi` from `inference_pipeline.py`. -/
def fallbackSummaryHi (_patientDict : PatientFeatures) (finalScore : ℚ) : String :=
  let level := riskLevel finalScore
  let levelHi := if level = "HIGH" then "उच्च"
    else if level = "MEDIUM" then "मध्यम"
    else if level = "LOW" then "निम्न"
    else "मध्यम"
  "क्लिनिकल और ऑडियो संकेतों के आधार पर टीबी जोखिम " ++ levelHi ++
    " है और अंतिम स्कोर " ++ format2 finalScore ++
    " है। कृपया नैदानिक जांच और पुष्टिकरण परीक्षण के साथ निर्णय लें।"

/-- The English prompt of `_generate_summaries` (after `int(age)`). -/
def promptEnOf (ageInt : ℤ) (fs : PatientFeatures) (probA probM finalScore : ℚ) : String :=
  "<start_of_turn>user\n" ++
  "You are an expert AI Triage Assistant in a tuberculosis clinic.\n" ++
  "PATIENT DATA: " ++ toString ageInt ++ " year old " ++ fs.sex ++ ". " ++
  "Weight loss: " ++ fs.weight_loss ++ ", Night Sweats: " ++ fs.night_sweats ++ ".\n" ++
  "AI Assessment: Acoustic Risk: " ++ format2 probA ++ ", Clinical Risk: " ++
    format2 probM ++ ", Final Risk: " ++ format2 finalScore ++ ".\n" ++
  "TASK: Write a concise 2-sentence clinical justification in English.\n" ++
  "Output strictly as:\n<final>Sentence 1. Sentence 2.</final>\n" ++
  "Do not include reasoning, analysis, or meta text.\n" ++
  "<end_of_turn>\n<start_of_turn>model\n"

/-- The Hindi prompt of `_generate_summaries`. -/
def promptHiOf (ageInt : ℤ) (fs : PatientFeatures) (probA probM finalScore : ℚ) : String :=
  "<start_of_turn>user\n" ++
  "You are an expert AI Triage Assistant in a tuberculosis clinic.\n" ++
  "PATIENT DATA: " ++ toString ageInt ++ " year old " ++ fs.sex ++ ". " ++
  "Weight loss: " ++ fs.weight_loss ++ ", Night Sweats: " ++ fs.night_sweats ++ ".\n" ++
  "AI Assessment: Acoustic Risk: " ++ format2 probA ++ ", Clinical Risk: " ++
    format2 probM ++ ", Final Risk: " ++ format2 finalScore ++ ".\n" ++
  "TASK: Write a concise 2-sentence clinical justification in Hindi (Devanagari script).\n" ++
  "Output strictly as:\n<final>Sentence 1. Sentence 2.</final>\n" ++
  "Do not include reasoning, analysis, transliteration, or English meta text.\n" ++
  "<end_of_turn>\n<start_of_turn>model\n"

/-- The English fallback condition in `_generate_summaries`. -/
def summaryFallbackCondEn (s : String) : Bool :=
  s = "" || strStartsWith (strToLower s) "sentence 1" ||
    containsSub (strToLower s) "thought" || containsSub (strToLower s) "user wants me"

/-- The Hindi fallback condition in `_generate_summaries`. -/
def summaryFallbackCondHi (s : String) : Bool :=
  s = "" || !containsDevanagari s ||
    containsSub (strToLower s) "thought" || containsSub (strToLower s) "user wants me"

/-- `_generate_summaries` from `inference_pipeline.py`, with the MedGemma
call as an oracle `generate : prompt → max_length → text`. The source calls
`int(patient_dict.get("age", 0))`, which raises on the NaN sentinel. -/
def generateSummaries (fs : PatientFeatures) (probA probM finalScore : ℚ)
    (generate : String → ℕ → String) : Except String (String × String) :=
  match fs.age with
  | Option.none => .error "cannot convert float NaN to integer"
  | some a =>
    let pEn := promptEnOf (truncInt a) fs probA probM finalScore
    let outEn := generate pEn 256
    let cEn := cleanLlmOutput pEn outEn "en"
    let sEn := if summaryFallbackCondEn cEn then fallbackSummaryEn fs finalScore else cEn
    let pHi := promptHiOf (truncInt a) fs probA probM finalScore
    let outHi := generate pHi 256
    let cHi := cleanLlmOutput pHi outHi "hi"
    let sHi := if summaryFallbackCondHi cHi then fallbackSummaryHi fs finalScore else cHi
    .ok (sEn, sHi)

/-- The risk-fusion step of `run_tb_inference` (lines building `x_stack`
and `final_score`): the calibrated supervisor is applied to the two
sub-scores followed by the processed feature vector; no clamping is
applied. A missing supervisor (`None` in the `ModelBundle` dataclass)
raises an `AttributeError`. -/
def fuseFinalScore (calSupervisor : Option (List ℚ → ℚ))
    (probA probM : ℚ) (xmProcessed : List ℚ) : Except String ℚ :=
  match calSupervisor with
  | Option.none =>
    .error "AttributeError: NoneType object has no attribute predict_proba"
  | some f => .ok (f (probA :: probM :: xmProcessed))

/-- The classical-model fail-fast check of `get_models` (`models.py`
lines 107-122), as a function of which components loaded. -/
def checkClassicalModels (metaPrep clfAudio clfClinical calSupervisor : Bool) :
    Except String Unit :=
  let missing :=
    (if !metaPrep then ["meta_preprocessor"] else []) ++
    (if !clfAudio then ["audio_expert"] else []) ++
    (if !clfClinical then ["clinical_expert"] else []) ++
    (if !calSupervisor then ["calibrated_supervisor"] else [])
  if missing.isEmpty then .ok ()
  else
    .error ("Classical model components missing or failed to load: " ++
      String.intercalate ", " missing ++
      ". Ensure required ML dependencies (e.g. lightgbm) are installed.")

/-- The configuration fields of `config.settings` used by the handler. -/
structure Settings where
  model_version : String
  target_model_version : String
  storage_bucket : String
deriving Repr, DecidableEq

/-- The `InferRequest` schema (`schemas.py`). -/
structure InferRequest where
  patient_id : String
  target_model_version : String
deriving Repr, DecidableEq

/-- The `InferResponse` schema (`schemas.py`). -/
structure InferResponse where
  ok : Bool
  status : String
  patient_id : String
  model_version : String
  detail : Option String := Option.none
deriving Repr, DecidableEq

/-- A persisted outcome record: `write_success` or `write_failure` call. -/
inductive WriteEvent where
  | success (payload : SuccessPayload)
  | failure (modelVersion : String) (errorMessage : String)
deriving Repr

/-- A `write_failure` call as an event: the message is truncated to 2000
characters inside `write_failure`. -/
def writeFailureEvent (modelVersion errorMessage : String) : WriteEvent :=
  .failure modelVersion (strTake errorMessage 2000)

/-- Observable outcome of one `/internal/infer` request: the HTTP-level
result (`.error (status, detail)` models a raised `HTTPException`), the
Firestore outcome writes, the temp files created by `tempfile.mkstemp`,
and the temp files still on disk after the `finally` cleanup. -/
structure InferOutcome where
  response : Except (ℕ × String) InferResponse
  writes : List WriteEvent
  created : List String
  leaked : List String
deriving Repr

/-- The `infer` request handler from `main.py`, as a function of the stored
record and of oracles for the external effects: `dl` is blob download
success, `names` supplies `mkstemp` paths, and `pipeline` abstracts
`get_models` plus `run_tb_inference` (an `.error` models any exception
raised by them). The `finally: cleanup_tmp_files(tmp_paths)` clause removes
exactly the files in the handler variable `tmp_paths`, which is still `[]`
when `download_audio_files` itself raises. -/
def mkOkResponse (status pid mv : String) (detail : Option String := Option.none) :
    InferResponse :=
  { ok := true, status := status, patient_id := pid, model_version := mv, detail := detail }

def inferHandler (cfg : Settings) (req : InferRequest) (store : Option Doc) (now : PyVal)
    (dl : AudioLocation → Bool) (names : List String)
    (pipeline : Doc → List String → Except String SuccessPayload) : InferOutcome :=
  if req.target_model_version ≠ cfg.target_model_version then
    { response := .ok (mkOkResponse "SKIP_TARGET_VERSION_MISMATCH" req.patient_id
        cfg.model_version (some "stale task target version")),
      writes := [], created := [], leaked := [] }
  else
    let claim := markProcessingIfNeeded store req.target_model_version now
    let status := claim.1.1
    let snap := claim.1.2
    let newStore := claim.2
    if status = "NOT_FOUND" then
      { response := .ok (mkOkResponse "SKIP_NOT_FOUND" req.patient_id cfg.model_version),
        writes := [], created := [], leaked := [] }
    else if status = "SKIP_ALREADY_DONE" ∨ status = "SKIP_IN_PROGRESS" then
      { response := .ok (mkOkResponse status req.patient_id cfg.model_version),
        writes := [], created := [], leaked := [] }
    else if status ≠ "PROCESSING_CLAIMED" then
      { response := .error (500, "Unknown claim status: " ++ status),
        writes := [], created := [], leaked := [] }
    else
      -- patient_doc = claim.get("doc") or get_patient(...): a falsy (empty)
      -- snapshot falls back to a fresh read of the post-transaction store.
      let viaOr : Option Doc :=
        match snap with
        | some d => if d.isEmpty then newStore else some d
        | Option.none => newStore
      let truthyDoc : Option Doc :=
        match viaOr with
        | some d => if d.isEmpty then Option.none else some d
        | Option.none => Option.none
      match truthyDoc with
      | Option.none =>
        { response := .ok (mkOkResponse "SKIP_NOT_FOUND_POST_CLAIM" req.patient_id cfg.model_version),
          writes := [], created := [], leaked := [] }
      | some pd =>
        let locs := collectAudioLocations cfg.storage_bucket pd
        let dlOut := downloadAudioFiles dl names locs
        let created := dlOut.1
        match dlOut.2 with
        | .error e =>
          { response := .error (500, "inference failed"),
            writes := [writeFailureEvent cfg.model_version e],
            created := created, leaked := created }
        | .ok tmpPaths =>
          if tmpPaths.isEmpty then
            { response := .error (500, "inference failed"),
              writes := [writeFailureEvent cfg.model_version
                "No downloadable audio found in patient audio metadata"],
              created := created,
              leaked := created.filter (fun f => !(tmpPaths.contains f)) }
          else
            match pipeline pd tmpPaths with
            | .ok payload =>
              { response := .ok (mkOkResponse "SUCCESS" req.patient_id cfg.model_version),
                writes := [.success payload],
                created := created,
                leaked := created.filter (fun f => !(tmpPaths.contains f)) }
            | .error e =>
              { response := .error (500, "inference failed"),
                writes := [writeFailureEvent cfg.model_version e],
                created := created,
                leaked := created.filter (fun f => !(tmpPaths.contains f)) }

/-- Whether an `Except` computation succeeded. -/
def isOkB {ε α : Type} : Except ε α → Bool
  | .ok _ => true
  | .error _ => false

/-- The six numeric patient fields are each absent (`None`) or coercible by
`float()`: exactly the condition under which `_extract_patient_features`
cannot raise. -/
def NumericOk (patientDoc : Doc) : Prop :=
  isOkB (numField (dictGetV (asDict (dictGetV patientDoc "demographics")) "age")) = true ∧
  isOkB (numField (dictGetV (asDict (dictGetV patientDoc "vitals")) "height_cm")) = true ∧
  isOkB (numField (dictGetV (asDict (dictGetV patientDoc "vitals")) "weight_kg")) = true ∧
  isOkB (numField (dictGetV (asDict (dictGetV patientDoc "clinical")) "cough_duration_days")) = true ∧
  isOkB (numField (dictGetV (asDict (dictGetV patientDoc "clinical")) "heart_rate_bpm")) = true ∧
  isOkB (numField (dictGetV (asDict (dictGetV patientDoc "clinical")) "body_temperature_c")) = true

/-- The extracted feature set as an `Option` (`none` = extraction raised). -/
def featOf (patientDoc : Doc) : Option PatientFeatures :=
  (extractPatientFeatures patientDoc).toOption

/-- The reasoning-leak detectors of `_generate_summaries` ("thought" /
"user wants me" markers on the sanitized text). -/
def reasoningLeakDetected (s : String) : Bool :=
  containsSub (strToLower s) "thought" || containsSub (strToLower s) "user wants me"

/-! ### Theorems -/

theorem ratOf_eq (n d : ℤ) : ratOf n d = (n : ℚ) / (d : ℚ) := Rat.divInt_eq_div n d

/-- Claim C2: for every fused score `s`, the tier mapping returns HIGH iff
`s ≥ 0.70`, MEDIUM iff `0.40 ≤ s < 0.70`, LOW iff `s < 0.40`; in particular
`0.40 ↦ MEDIUM`, `0.70 ↦ HIGH`, `0.3999 ↦ LOW`, `0.6999 ↦ MEDIUM`. -/
theorem riskLevel_threshold_ladder (s : ℚ) :
    (riskLevel s = "HIGH" ↔ 70 / 100 ≤ s) ∧
    (riskLevel s = "MEDIUM" ↔ 40 / 100 ≤ s ∧ s < 70 / 100) ∧
    (riskLevel s = "LOW" ↔ s < 40 / 100) ∧
    riskLevel (40 / 100) = "MEDIUM" ∧
    riskLevel (70 / 100) = "HIGH" ∧
    riskLevel (3999 / 10000) = "LOW" ∧
    riskLevel (6999 / 10000) = "MEDIUM" := by
  have h70 : ratOf 70 100 = 70 / 100 := by rw [ratOf_eq]; norm_num
  have h40 : ratOf 40 100 = 40 / 100 := by rw [ratOf_eq]; norm_num
  have hladder : ∀ t : ℚ, riskLevel t =
      (if 70 / 100 ≤ t then "HIGH" else if 40 / 100 ≤ t then "MEDIUM" else "LOW") := by
    intro t
    unfold riskLevel
    rw [h70, h40]
  rw [hladder s, hladder (40 / 100), hladder (70 / 100), hladder (3999 / 10000),
    hladder (6999 / 10000)]
  refine ⟨?_, ?_, ?_, by norm_num, by norm_num, by norm_num, by norm_num⟩
  · constructor
    · intro h
      by_contra hlt
      push_neg at hlt
      rw [if_neg (not_le.mpr hlt)] at h
      split_ifs at h <;> simp_all
    · intro h
      rw [if_pos h]
  · constructor
    · intro h
      split_ifs at h with h1 h2
      · simp_all
      · exact ⟨h2, lt_of_not_le h1⟩
      · simp_all
    · rintro ⟨h1, h2⟩
      rw [if_neg (not_le.mpr h2), if_pos h1]
  · constructor
    · intro h
      split_ifs at h with h1 h2
      · simp_all
      · simp_all
      · exact lt_of_not_le h2
    · intro h
      rw [if_neg (not_le.mpr (lt_trans h (by norm_num))),
        if_neg (not_le.mpr h)]

theorem dictGet_dictSet_self (d : Doc) (k : String) (v : PyVal) :
    dictGet (dictSet d k v) k = some v := by
  induction d with
  | nil => simp [dictSet, dictGet]
  | cons kv rest ih =>
    obtain ⟨k', w⟩ := kv
    by_cases h : k' = k
    · subst h; simp [dictSet, dictGet]
    · simp [dictSet, dictGet, h, ih]

theorem dictGet_dictSet_ne (d : Doc) (k k' : String) (v : PyVal) (h : k ≠ k') :
    dictGet (dictSet d k v) k' = dictGet d k' := by
  induction d with
  | nil => simp [dictSet, dictGet, h]
  | cons kv rest ih =>
    obtain ⟨k₀, w⟩ := kv
    by_cases h0 : k₀ = k
    · subst h0; simp [dictSet, dictGet, h]
    · by_cases h1 : k₀ = k'
      · subst h1; simp [dictSet, dictGet, h0]
      · simp [dictSet, dictGet, h0, h1, ih]

theorem dictGet_dictDelAll_self (d : Doc) (k : String) :
    dictGet (dictDelAll d k) k = Option.none := by
  induction d with
  | nil => simp [dictDelAll, dictGet]
  | cons kv rest ih =>
    obtain ⟨k₀, w⟩ := kv
    by_cases h0 : k₀ = k
    · subst h0; simpa [dictDelAll, dictGet] using ih
    · simpa [dictDelAll, dictGet, h0] using ih

theorem dictGet_dictDelAll_ne (d : Doc) (k k' : String) (h : k ≠ k') :
    dictGet (dictDelAll d k) k' = dictGet d k' := by
  induction d with
  | nil => simp [dictDelAll, dictGet]
  | cons kv rest ih =>
    obtain ⟨k₀, w⟩ := kv
    by_cases h0 : k₀ = k
    · subst h0; simpa [dictDelAll, dictGet, h] using ih
    · by_cases h1 : k₀ = k'
      · subst h1; simp [dictDelAll, dictGet, h0]
      · simpa [dictDelAll, dictGet, h0, h1] using ih

/-- The `ai` sub-map written by a successful claim. -/
theorem claimUpdate_ai (d : Doc) (target : String) (now : PyVal) :
    asDict (dictGetV (claimUpdate d target now) "ai") =
      dictDelAll (dictSet (dictSet (dictSet (asDict (dictGetV d "ai"))
        "model_version" (.str target)) "inference_status" (.str "PROCESSING"))
        "processing_started_at" now) "error_message" := by
  unfold claimUpdate
  simp [dictGetV, dictGet_dictSet_self, asDict]

theorem claimUpdate_fields (d : Doc) (target : String) (now : PyVal) :
    dictGetV (asDict (dictGetV (claimUpdate d target now) "ai")) "model_version"
        = .str target ∧
    dictGetV (asDict (dictGetV (claimUpdate d target now) "ai")) "inference_status"
        = .str "PROCESSING" ∧
    dictGetV (asDict (dictGetV (claimUpdate d target now) "ai")) "processing_started_at"
        = now ∧
    dictGet (asDict (dictGetV (claimUpdate d target now) "ai")) "error_message"
        = Option.none := by
  rw [claimUpdate_ai]
  refine ⟨?_, ?_, ?_, ?_⟩
  · rw [dictGetV, dictGet_dictDelAll_ne _ _ _ (by decide),
      dictGet_dictSet_ne _ _ _ _ (by decide), dictGet_dictSet_ne _ _ _ _ (by decide),
      dictGet_dictSet_self]
    rfl
  · rw [dictGetV, dictGet_dictDelAll_ne _ _ _ (by decide),
      dictGet_dictSet_ne _ _ _ _ (by decide), dictGet_dictSet_self]
    rfl
  · rw [dictGetV, dictGet_dictDelAll_ne _ _ _ (by decide), dictGet_dictSet_self]
    rfl
  · exact dictGet_dictDelAll_self _ _

/-- Claim C1: the atomic claim operation returns NOT_FOUND for an absent
record; returns the already-done skip without mutation when the stored AI
result has the target model version with status SUCCESS; returns the
in-progress skip without mutation when it has the target version with
status PROCESSING; and otherwise claims: it sets `ai.model_version` to the
target, `ai.inference_status` to PROCESSING, `ai.processing_started_at` to
the server timestamp, clears `ai.error_message`, and returns the
pre-mutation snapshot. -/
theorem markProcessing_claim_protocol (store : Option Doc) (target : String) (now : PyVal) :
    (store = Option.none →
      markProcessingIfNeeded store target now = (("NOT_FOUND", Option.none), Option.none)) ∧
    (∀ d, store = some d →
      ((pyEqStr (dictGetV (asDict (dictGetV d "ai")) "model_version") target &&
          pyEqStr (dictGetV (asDict (dictGetV d "ai")) "inference_status") "SUCCESS") = true →
        markProcessingIfNeeded store target now = (("SKIP_ALREADY_DONE", some d), store)) ∧
      ((pyEqStr (dictGetV (asDict (dictGetV d "ai")) "model_version") target &&
          pyEqStr (dictGetV (asDict (dictGetV d "ai")) "inference_status") "SUCCESS") = false →
       (pyEqStr (dictGetV (asDict (dictGetV d "ai")) "model_version") target &&
          pyEqStr (dictGetV (asDict (dictGetV d "ai")) "inference_status") "PROCESSING") = true →
        markProcessingIfNeeded store target now = (("SKIP_IN_PROGRESS", some d), store)) ∧
      ((pyEqStr (dictGetV (asDict (dictGetV d "ai")) "model_version") target &&
          pyEqStr (dictGetV (asDict (dictGetV d "ai")) "inference_status") "SUCCESS") = false →
       (pyEqStr (dictGetV (asDict (dictGetV d "ai")) "model_version") target &&
          pyEqStr (dictGetV (asDict (dictGetV d "ai")) "inference_status") "PROCESSING") = false →
        markProcessingIfNeeded store target now =
          (("PROCESSING_CLAIMED", some d), some (claimUpdate d target now)) ∧
        dictGetV (asDict (dictGetV (claimUpdate d target now) "ai")) "model_version"
          = .str target ∧
        dictGetV (asDict (dictGetV (claimUpdate d target now) "ai")) "inference_status"
          = .str "PROCESSING" ∧
        dictGetV (asDict (dictGetV (claimUpdate d target now) "ai")) "processing_started_at"
          = now ∧
        dictGet (asDict (dictGetV (claimUpdate d target now) "ai")) "error_message"
          = Option.none)) := by
  refine ⟨fun h => by subst h; rfl, fun d hd => ?_⟩
  subst hd
  refine ⟨fun h1 => ?_, fun h1 h2 => ?_, fun h1 h2 => ?_⟩
  · unfold markProcessingIfNeeded
    simp [h1]
  · unfold markProcessingIfNeeded
    simp [h1, h2]
  · refine ⟨?_, claimUpdate_fields d target now⟩
    unfold markProcessingIfNeeded
    simp [h1, h2]

/-- Witness for C1 at a concrete record: a stale FAILED record with an old
error message is claimed, the `ai` fields are rewritten and the error
message is cleared. -/
theorem markProcessing_claim_protocol_witness :
    markProcessingIfNeeded
        (some [("ai", PyVal.dict [("model_version", PyVal.str "v1"),
          ("inference_status", PyVal.str "FAILED"),
          ("error_message", PyVal.str "boom")])]) "v2" (PyVal.int 1700000000) =
      (("PROCESSING_CLAIMED",
        some [("ai", PyVal.dict [("model_version", PyVal.str "v1"),
          ("inference_status", PyVal.str "FAILED"),
          ("error_message", PyVal.str "boom")])]),
       some (claimUpdate [("ai", PyVal.dict [("model_version", PyVal.str "v1"),
          ("inference_status", PyVal.str "FAILED"),
          ("error_message", PyVal.str "boom")])] "v2" (PyVal.int 1700000000))) ∧
    dictGet (asDict (dictGetV (claimUpdate
        [("ai", PyVal.dict [("model_version", PyVal.str "v1"),
          ("inference_status", PyVal.str "FAILED"),
          ("error_message", PyVal.str "boom")])] "v2" (PyVal.int 1700000000)) "ai"))
      "error_message" = Option.none := by
  have h := (markProcessing_claim_protocol
    (some [("ai", PyVal.dict [("model_version", PyVal.str "v1"),
      ("inference_status", PyVal.str "FAILED"),
      ("error_message", PyVal.str "boom")])]) "v2" (PyVal.int 1700000000)).2
    [("ai", PyVal.dict [("model_version", PyVal.str "v1"),
      ("inference_status", PyVal.str "FAILED"),
      ("error_message", PyVal.str "boom")])] rfl
  have h3 := h.2.2 (by decide) (by decide)
  exact ⟨h3.1, h3.2.2.2.2⟩

/-- Claim C10: `write_success` persists, alongside the bilingual summary
fields, the legacy single summary `ai.medgemini_summary` (equal to the
English summary) and the bilingual map `ai.medgemini_summary_i18n` with
`en`/`hi` entries. -/
theorem writeSuccess_legacy_summary_fields (d : Doc) (p : SuccessPayload) (now : PyVal) :
    dictGetV (asDict (dictGetV (writeSuccess d p now) "ai")) "medgemini_summary"
      = .str p.medgemini_summary_en ∧
    dictGetV (asDict (dictGetV (writeSuccess d p now) "ai")) "medgemini_summary_i18n"
      = .dict [("en", .str p.medgemini_summary_en), ("hi", .str p.medgemini_summary_hi)] ∧
    dictGetV (asDict (dictGetV (writeSuccess d p now) "ai")) "medgemini_summary_en"
      = .str p.medgemini_summary_en ∧
    dictGetV (asDict (dictGetV (writeSuccess d p now) "ai")) "medgemini_summary_hi"
      = .str p.medgemini_summary_hi ∧
    dictGetV (asDict (dictGetV (writeSuccess d p now) "ai")) "inference_status"
      = .str "SUCCESS" := by
  unfold writeSuccess
  simp only [dictGetV, dictGet_dictSet_self, Option.getD_some, asDict]
  refine ⟨?_, ?_, ?_, ?_, ?_⟩ <;>
    rw [dictGet_dictDelAll_ne _ _ _ (by decide)] <;>
    simp [dictGet_dictSet_self, dictGet_dictSet_ne]

/-- Counterexample to C4: when the supervisor capability is unavailable
(`cal_supervisor = None`), the fusion step does not compute the weighted
linear combination `clamp(0.55·clinical + 0.45·acoustic)` — with acoustic
sub-score 1 and clinical sub-score 0 the claim predicts 0.45, but the code
path raises instead; moreover `get_models` fails fast in that situation. -/
theorem fuseFinalScore_unavailable_counterexample :
    fuseFinalScore Option.none 1 0 [] =
      Except.error "AttributeError: NoneType object has no attribute predict_proba" ∧
    fuseFinalScore Option.none 1 0 [] ≠
      Except.ok (min 1 (max 0 (55 / 100 * (0 : ℚ) + 45 / 100 * 1))) ∧
    checkClassicalModels true true true false =
      Except.error "Classical model components missing or failed to load: calibrated_supervisor. Ensure required ML dependencies (e.g. lightgbm) are installed." := by
  refine ⟨rfl, ?_, rfl⟩
  intro h
  exact Except.noConfusion h

/-- Claim C4, amended: the risk fusion always invokes the calibrated
supervisor on the two sub-scores followed by the full processed feature
vector and returns its output unchanged (no clamping, so the final score is
in [0,1] exactly when the capability output is); there is no baseline
weighted combination — when the supervisor is unavailable the fusion step
raises and model loading fails fast naming `calibrated_supervisor`. -/
theorem fuseFinalScore_supervisor_always (f : List ℚ → ℚ) (probA probM : ℚ) (xm : List ℚ) :
    fuseFinalScore (some f) probA probM xm = Except.ok (f (probA :: probM :: xm)) ∧
    (∀ pa pm x, fuseFinalScore Option.none pa pm x =
      Except.error "AttributeError: NoneType object has no attribute predict_proba") ∧
    checkClassicalModels true true true false =
      Except.error "Classical model components missing or failed to load: calibrated_supervisor. Ensure required ML dependencies (e.g. lightgbm) are installed." :=
  ⟨rfl, fun _ _ _ => rfl, rfl⟩

/-- Counterexample to C6: a reference whose resolved path component is
empty (`gs://mybucket`) does not resolve to null — `resolve_audio_location`
returns a location with an empty `blob_path`. -/
theorem resolveAudioLocation_empty_path_counterexample :
    resolveAudioLocation "default-bucket" [("storage_uri", PyVal.str "gs://mybucket")] =
      some { bucket := "mybucket", blob_path := "" } ∧
    resolveAudioLocation "default-bucket" [("storage_uri", PyVal.str "gs://mybucket")] ≠
      Option.none := by
  refine ⟨by decide, by decide⟩

theorem prefix_head_eq {p q : Char} {ps qs l : List Char}
    (h1 : (p :: ps).isPrefixOf l = true) (h2 : (q :: qs).isPrefixOf l = true) :
    p = q := by
  cases l with
  | nil => simp [List.isPrefixOf] at h1
  | cons c cs =>
    simp [List.isPrefixOf] at h1 h2
    exact h1.1.trans h2.1.symm

/-- Every location kept by `collect_audio_locations` has a non-empty path:
the `if loc and loc.blob_path` guard filters empty-path resolutions. -/
theorem collectAudioLocations_no_empty_path (bucket : String) (patientDoc : Doc) :
    ∀ loc ∈ collectAudioLocations bucket patientDoc, loc.blob_path ≠ "" := by
  unfold collectAudioLocations
  generalize (match dictGetD patientDoc "audio" (PyVal.list []) with
    | PyVal.list xs => xs
    | _ => ([] : List PyVal)) = entries
  induction entries with
  | nil => simp
  | cons e rest ih =>
    intro loc hmem
    simp only [List.foldr] at hmem
    cases e with
    | dict kvs =>
      dsimp only at hmem
      cases hres : resolveAudioLocation bucket kvs with
      | none =>
        rw [hres] at hmem
        dsimp only at hmem
        exact ih loc hmem
      | some l =>
        rw [hres] at hmem
        dsimp only at hmem
        by_cases hbp : l.blob_path = ""
        · rw [if_neg (by simp [hbp])] at hmem
          exact ih loc hmem
        · rw [if_pos (by simpa using hbp)] at hmem
          rcases List.mem_cons.mp hmem with h | h
          · exact h ▸ hbp
          · exact ih loc h
    | none => exact ih loc (by dsimp only at hmem; exact hmem)
    | bool b => exact ih loc (by dsimp only at hmem; exact hmem)
    | int n => exact ih loc (by dsimp only at hmem; exact hmem)
    | float q => exact ih loc (by dsimp only at hmem; exact hmem)
    | str s => exact ih loc (by dsimp only at hmem; exact hmem)
    | list xs => exact ih loc (by dsimp only at hmem; exact hmem)

/-- An HTTPS reference whose netloc is neither recognized object-store host
resolves to null: `_from_storage_googleapis_url` and
`_from_firebase_download_url` both reject it. -/
theorem resolveHttp_no_host_match (bucket : String) (entry : Doc) (s : String)
    (hs : dictGetV entry "storage_uri" = PyVal.str s)
    (hhttp : (strStartsWith s "http://" || strStartsWith s "https://") = true)
    (hg : (urlSplit s).2.1 ≠ "storage.googleapis.com")
    (hf : containsSub (urlSplit s).2.1 "firebasestorage.googleapis.com" = false) :
    resolveAudioLocation bucket entry = Option.none := by
  have hsne : s ≠ "" := by
    intro h0
    subst h0
    simp [strStartsWith, List.isPrefixOf] at hhttp
  have hgs : strStartsWith s "gs://" = false := by
    by_contra hgs'
    rw [Bool.not_eq_false] at hgs'
    rcases (by simpa using hhttp :
        strStartsWith s "http://" = true ∨ strStartsWith s "https://" = true) with h | h
    · have := prefix_head_eq
        (show (('g' : Char) :: "s://".toList).isPrefixOf s.toList = true from hgs')
        (show (('h' : Char) :: "ttp://".toList).isPrefixOf s.toList = true from h)
      exact absurd this (by decide)
    · have := prefix_head_eq
        (show (('g' : Char) :: "s://".toList).isPrefixOf s.toList = true from hgs')
        (show (('h' : Char) :: "ttps://".toList).isPrefixOf s.toList = true from h)
      exact absurd this (by decide)
  rcases hu : urlSplit s with ⟨sch, netloc, path⟩
  rw [hu] at hg hf
  dsimp only at hg hf
  have hsg : fromStorageGoogleapisUrl s = Option.none := by
    unfold fromStorageGoogleapisUrl
    rw [hu]
    dsimp only
    rw [if_pos hg]
  have hfb : fromFirebaseDownloadUrl s = Option.none := by
    unfold fromFirebaseDownloadUrl
    rw [hu]
    dsimp only
    rw [if_pos (by simp [hf])]
  unfold resolveAudioLocation
  rw [hs]
  have htruthy : pyTruthy (PyVal.str s) = true := by simp [pyTruthy, hsne]
  simp [htruthy, hgs, hhttp, hsg, hfb]

/-- Claim C6, amended: `resolve_audio_location` returns null (never an
exception) when no reference string is present or when an HTTPS reference
matches neither recognized host; the download-URL form is percent-decoded
exactly once (`%2F` becomes `/`, `%2520` becomes `%20`, not a space);
however a matched form with an empty path component yields a location with
an empty path rather than null, and such entries are filtered out by
`collect_audio_locations` (which never returns an empty-path location). -/
theorem resolveAudioLocation_amended (bucket : String) :
    (∀ entry : Doc, dictGetV entry "storage_uri" = PyVal.none →
      dictGetV entry "storage_path" = PyVal.none →
      resolveAudioLocation bucket entry = Option.none) ∧
    (∀ (entry : Doc) (s : String), dictGetV entry "storage_uri" = PyVal.str s →
      (strStartsWith s "http://" || strStartsWith s "https://") = true →
      (urlSplit s).2.1 ≠ "storage.googleapis.com" →
      containsSub (urlSplit s).2.1 "firebasestorage.googleapis.com" = false →
      resolveAudioLocation bucket entry = Option.none) ∧
    (∀ (b : String) (patientDoc : Doc) (loc : AudioLocation),
      loc ∈ collectAudioLocations b patientDoc → loc.blob_path ≠ "") ∧
    resolveAudioLocation "db" [("storage_uri", PyVal.str "https://example.com/bucket/a.wav")]
      = Option.none ∧
    resolveAudioLocation "db" [("storage_uri",
        PyVal.str "https://firebasestorage.googleapis.com/v0/b/mybucket/o/audio%2Fa%2520b.wav?alt=media")]
      = some { bucket := "mybucket", blob_path := "audio/a%20b.wav" } ∧
    collectAudioLocations "db" [("audio", PyVal.list [PyVal.dict
        [("storage_uri", PyVal.str "gs://mybucket")]])] = [] := by
  refine ⟨?_, ?_, ?_, by decide, by decide, by decide⟩
  · intro entry h1 h2
    unfold resolveAudioLocation
    rw [h1, h2]
    rfl
  · exact fun entry s hs hhttp hg hf => resolveHttp_no_host_match bucket entry s hs hhttp hg hf
  · exact fun b patientDoc => collectAudioLocations_no_empty_path b patientDoc

/-- Witness for the amended C6: a concrete entry with no reference keys
resolves to null; a concrete HTTPS reference on an unrecognized host
resolves to null; and a concrete collected location has a non-empty path. -/
theorem resolveAudioLocation_amended_witness :
    resolveAudioLocation "db" [("mime_type", PyVal.str "audio/wav")] = Option.none ∧
    resolveAudioLocation "db" [("storage_uri",
      PyVal.str "https://cdn.example.org/x/y.wav")] = Option.none ∧
    ({ bucket := "b", blob_path := "a.wav" } : AudioLocation).blob_path ≠ "" :=
  ⟨(resolveAudioLocation_amended "db").1 [("mime_type", PyVal.str "audio/wav")] rfl rfl,
   (resolveAudioLocation_amended "db").2.1 [("storage_uri",
      PyVal.str "https://cdn.example.org/x/y.wav")] "https://cdn.example.org/x/y.wav"
      rfl (by decide) (by decide) (by decide),
   (resolveAudioLocation_amended "db").2.2.1 "db"
      [("audio", PyVal.list [PyVal.dict [("storage_uri", PyVal.str "gs://b/a.wav")]])]
      { bucket := "b", blob_path := "a.wav" } (by decide)⟩

@[simp] theorem except_bind_ok {ε α β : Type} (a : α) (f : α → Except ε β) :
    (Except.ok a : Except ε α) >>= f = f a := rfl

@[simp] theorem except_pure_eq {ε α : Type} (a : α) :
    (pure a : Except ε α) = Except.ok a := rfl

@[simp] theorem except_toOption_ok {ε α : Type} (a : α) :
    (Except.ok a : Except ε α).toOption = some a := rfl

@[simp] theorem numField_none : numField PyVal.none = Except.ok Option.none := rfl

theorem isOkB_exists {ε α : Type} {e : Except ε α} (h : isOkB e = true) :
    ∃ a, e = .ok a := by
  cases e with
  | ok a => exact ⟨a, rfl⟩
  | error _ => simp [isOkB] at h

/-- Counterexample to C5: feature extraction raises on a present but
non-numeric `age` field (`float("abc")` raises `ValueError` in the source),
so it does not return a feature set for every malformed document. -/
theorem extractPatientFeatures_raises_counterexample :
    extractPatientFeatures [("demographics", PyVal.dict [("age", PyVal.str "abc")])] =
      Except.error "could not convert string to float: abc" ∧
    featOf [("demographics", PyVal.dict [("age", PyVal.str "abc")])] = Option.none := by
  exact ⟨rfl, rfl⟩

/-- Claim C5, amended: feature extraction tolerates absent fields and
wrong-typed containers; a numeric field that is absent or `None` becomes
the NaN sentinel (never zero) and missing categorical answers become the
Missing sentinel; but extraction raises when a present numeric field cannot
be coerced by `float()` (e.g. a non-numeric string). Under the coercibility
condition `NumericOk`, extraction always succeeds. -/
theorem extractPatientFeatures_tolerant_amended (patientDoc : Doc) (h : NumericOk patientDoc) :
    (featOf patientDoc).isSome = true ∧
    (dictGetV (asDict (dictGetV patientDoc "demographics")) "age" = PyVal.none →
      (featOf patientDoc).map PatientFeatures.age = some Option.none) ∧
    (dictGetV (asDict (dictGetV patientDoc "clinical")) "cough_duration_days" = PyVal.none →
      (featOf patientDoc).map PatientFeatures.reported_cough_dur = some Option.none) ∧
    (dictGetV (asDict (dictGetV patientDoc "clinical")) "weight_loss" = PyVal.none →
     dictGetV (asDict (dictGetV (asDict (dictGetV patientDoc "clinical"))
        "risk_factor_answers")) "weightLoss" = PyVal.none →
      (featOf patientDoc).map PatientFeatures.weight_loss = some "Missing") := by
  obtain ⟨h1, h2, h3, h4, h5, h6⟩ := h
  obtain ⟨a1, e1⟩ := isOkB_exists h1
  obtain ⟨a2, e2⟩ := isOkB_exists h2
  obtain ⟨a3, e3⟩ := isOkB_exists h3
  obtain ⟨a4, e4⟩ := isOkB_exists h4
  obtain ⟨a5, e5⟩ := isOkB_exists h5
  obtain ⟨a6, e6⟩ := isOkB_exists h6
  refine ⟨?_, ?_, ?_, ?_⟩
  · simp [featOf, extractPatientFeatures, e1, e2, e3, e4, e5, e6, Except.toOption]
  · intro hage
    simp [featOf, extractPatientFeatures, hage, e2, e3, e4, e5, e6]
  · intro hcough
    simp [featOf, extractPatientFeatures, hcough, e1, e2, e3, e5, e6]
  · intro hwl hwl2
    simp [featOf, extractPatientFeatures, hwl, hwl2, e1, e2, e3, e4, e5, e6,
      Except.toOption, normalizeAnswer, yesNoMissing]

/-- Witness for the amended C5: the empty document extracts successfully,
with the NaN sentinel for `age` and the Missing sentinel for weight loss. -/
theorem extractPatientFeatures_tolerant_witness :
    (featOf []).isSome = true ∧
    (featOf []).map PatientFeatures.age = some Option.none ∧
    (featOf []).map PatientFeatures.weight_loss = some "Missing" := by
  have h := extractPatientFeatures_tolerant_amended [] ⟨rfl, rfl, rfl, rfl, rfl, rfl⟩
  exact ⟨h.1, h.2.1 rfl, h.2.2.2 rfl rfl⟩

/-- Claim C3: for every patient record and fused score, the rule-based
action builder returns English and Hindi lists of equal length, each of at
most 5 items (built pairwise in the same order), and whenever a red flag is
present (blood-stained cough nature, a normalized shortness-of-breath
physical-sign tag, or a legacy HEMOPTYSIS symptom code) the urgent-referral
action is the first element of both lists. -/
theorem ruleActions_paired_bounded_redflag (patientDoc : Doc) (finalScore : ℚ) :
    (buildRuleActions patientDoc finalScore).1.length =
      (buildRuleActions patientDoc finalScore).2.length ∧
    (buildRuleActions patientDoc finalScore).1.length ≤ 5 ∧
    (redFlagOf patientDoc = true →
      (buildRuleActions patientDoc finalScore).1.head? = some urgentReferralEn ∧
      (buildRuleActions patientDoc finalScore).2.head? = some urgentReferralHi) := by
  have hlev : riskLevel finalScore = "HIGH" ∨ riskLevel finalScore = "MEDIUM" ∨
      riskLevel finalScore = "LOW" := by
    unfold riskLevel
    split_ifs <;> simp
  unfold buildRuleActions
  rcases hlev with h | h | h <;> rw [h] <;>
    by_cases hrf : redFlagOf patientDoc = true <;>
      simp only [hrf, Bool.not_eq_true] at * <;>
        simp only [hrf, if_true, if_false, Bool.false_eq_true] <;>
          split_ifs <;>
            simp [urgentReferralEn, urgentReferralHi, highActionsEn, highActionsHi,
              mediumActionsEn, mediumActionsHi, lowActionsEn, lowActionsHi,
              longCoughEn, longCoughHi, documentVitalsEn, documentVitalsHi, hrf]

/-- Witness for C3 at the spec's end-to-end scenario: blood-stained cough,
20-day duration, fused score 0.82 — the red flag is present and the
urgent-referral action heads both lists. -/
theorem ruleActions_paired_bounded_redflag_witness :
    (buildRuleActions [("clinical", PyVal.dict
        [("cough_nature", PyVal.str "BLOOD_STAINED"),
         ("cough_duration_days", PyVal.int 20)])] (ratOf 82 100)).1.length =
      (buildRuleActions [("clinical", PyVal.dict
        [("cough_nature", PyVal.str "BLOOD_STAINED"),
         ("cough_duration_days", PyVal.int 20)])] (ratOf 82 100)).2.length ∧
    (buildRuleActions [("clinical", PyVal.dict
        [("cough_nature", PyVal.str "BLOOD_STAINED"),
         ("cough_duration_days", PyVal.int 20)])] (ratOf 82 100)).1.length ≤ 5 ∧
    ((buildRuleActions [("clinical", PyVal.dict
        [("cough_nature", PyVal.str "BLOOD_STAINED"),
         ("cough_duration_days", PyVal.int 20)])] (ratOf 82 100)).1.head? =
      some urgentReferralEn ∧
     (buildRuleActions [("clinical", PyVal.dict
        [("cough_nature", PyVal.str "BLOOD_STAINED"),
         ("cough_duration_days", PyVal.int 20)])] (ratOf 82 100)).2.head? =
      some urgentReferralHi) := by
  have h := ruleActions_paired_bounded_redflag [("clinical", PyVal.dict
    [("cough_nature", PyVal.str "BLOOD_STAINED"),
     ("cough_duration_days", PyVal.int 20)])] (ratOf 82 100)
  exact ⟨h.1, h.2.1, h.2.2 (by decide)⟩

/-- Claim C9: per language variant — whenever the sanitized English text is
empty or reasoning leakage is detected, the English summary is the
deterministic templated fallback; whenever the sanitized Hindi text is
empty, contains no Devanagari character, or leaks reasoning, the Hindi
summary is the fallback (each trigger acts independently); moreover an
output consisting of reasoning-artifact text ("Let\x27s think
step-by-step: ...") sanitizes to the empty string, hence triggers the
fallback. -/
theorem generateSummaries_fallback (fs : PatientFeatures) (probA probM finalScore : ℚ)
    (generate : String → ℕ → String) (a : ℚ) (hage : fs.age = some a) :
    ((cleanLlmOutput (promptEnOf (truncInt a) fs probA probM finalScore)
        (generate (promptEnOf (truncInt a) fs probA probM finalScore) 256) "en" = "" ∨
      reasoningLeakDetected (cleanLlmOutput (promptEnOf (truncInt a) fs probA probM finalScore)
        (generate (promptEnOf (truncInt a) fs probA probM finalScore) 256) "en") = true) →
      (generateSummaries fs probA probM finalScore generate).map Prod.fst =
        Except.ok (fallbackSummaryEn fs finalScore)) ∧
    ((cleanLlmOutput (promptHiOf (truncInt a) fs probA probM finalScore)
        (generate (promptHiOf (truncInt a) fs probA probM finalScore) 256) "hi" = "" ∨
      containsDevanagari (cleanLlmOutput (promptHiOf (truncInt a) fs probA probM finalScore)
        (generate (promptHiOf (truncInt a) fs probA probM finalScore) 256) "hi") = false ∨
      reasoningLeakDetected (cleanLlmOutput (promptHiOf (truncInt a) fs probA probM finalScore)
        (generate (promptHiOf (truncInt a) fs probA probM finalScore) 256) "hi") = true) →
      (generateSummaries fs probA probM finalScore generate).map Prod.snd =
        Except.ok (fallbackSummaryHi fs finalScore)) ∧
    cleanLlmOutput "PROMPT"
      "Let\x27s think step-by-step: the patient is high risk. More reasoning here."
      "en" = "" := by
  refine ⟨fun hEn => ?_, fun hHi => ?_, rfl⟩
  · have hcEn : summaryFallbackCondEn
        (cleanLlmOutput (promptEnOf (truncInt a) fs probA probM finalScore)
          (generate (promptEnOf (truncInt a) fs probA probM finalScore) 256) "en") = true := by
      rcases hEn with h | h
      · simp [summaryFallbackCondEn, h]
      · simp only [reasoningLeakDetected, Bool.or_eq_true] at h
        rcases h with h | h <;> simp [summaryFallbackCondEn, h]
    simp [generateSummaries, hage, hcEn, Except.map]
  · have hcHi : summaryFallbackCondHi
        (cleanLlmOutput (promptHiOf (truncInt a) fs probA probM finalScore)
          (generate (promptHiOf (truncInt a) fs probA probM finalScore) 256) "hi") = true := by
      rcases hHi with h | h | h
      · simp [summaryFallbackCondHi, h]
      · simp [summaryFallbackCondHi, h]
      · simp only [reasoningLeakDetected, Bool.or_eq_true] at h
        rcases h with h | h <;> simp [summaryFallbackCondHi, h]
    simp [generateSummaries, hage, hcHi, Except.map]

/-- Witness for C9, exercising the triggers independently: an empty oracle
output triggers the English fallback, and a clean English-style output
without Devanagari triggers the Hindi fallback on its own. -/
theorem generateSummaries_fallback_witness :
    (generateSummaries
      { age := some 40, height := Option.none, weight := Option.none,
        reported_cough_dur := Option.none, heart_rate := Option.none,
        temperature := Option.none, n_recordings := 1, n_cough_windows_total := 1,
        sex := "Missing", tb_prior := "No", tb_prior_Pul := "Missing",
        tb_prior_Extrapul := "Missing", tb_prior_Unknown := "Missing",
        hemoptysis := "No", weight_loss := "Missing", smoke_lweek := "Missing",
        fever := "No", night_sweats := "Missing" } 0 0 0 (fun _ _ => "")).map Prod.fst =
      Except.ok (fallbackSummaryEn
        { age := some 40, height := Option.none, weight := Option.none,
          reported_cough_dur := Option.none, heart_rate := Option.none,
          temperature := Option.none, n_recordings := 1, n_cough_windows_total := 1,
          sex := "Missing", tb_prior := "No", tb_prior_Pul := "Missing",
          tb_prior_Extrapul := "Missing", tb_prior_Unknown := "Missing",
          hemoptysis := "No", weight_loss := "Missing", smoke_lweek := "Missing",
          fever := "No", night_sweats := "Missing" } 0) ∧
    (generateSummaries
      { age := some 40, height := Option.none, weight := Option.none,
        reported_cough_dur := Option.none, heart_rate := Option.none,
        temperature := Option.none, n_recordings := 1, n_cough_windows_total := 1,
        sex := "Missing", tb_prior := "No", tb_prior_Pul := "Missing",
        tb_prior_Extrapul := "Missing", tb_prior_Unknown := "Missing",
        hemoptysis := "No", weight_loss := "Missing", smoke_lweek := "Missing",
        fever := "No", night_sweats := "Missing" } 0 0 0
      (fun _ _ => "<final>All good. Risk explained.</final>")).map Prod.snd =
      Except.ok (fallbackSummaryHi
        { age := some 40, height := Option.none, weight := Option.none,
          reported_cough_dur := Option.none, heart_rate := Option.none,
          temperature := Option.none, n_recordings := 1, n_cough_windows_total := 1,
          sex := "Missing", tb_prior := "No", tb_prior_Pul := "Missing",
          tb_prior_Extrapul := "Missing", tb_prior_Unknown := "Missing",
          hemoptysis := "No", weight_loss := "Missing", smoke_lweek := "Missing",
          fever := "No", night_sweats := "Missing" } 0) :=
  ⟨(generateSummaries_fallback
      { age := some 40, height := Option.none, weight := Option.none,
        reported_cough_dur := Option.none, heart_rate := Option.none,
        temperature := Option.none, n_recordings := 1, n_cough_windows_total := 1,
        sex := "Missing", tb_prior := "No", tb_prior_Pul := "Missing",
        tb_prior_Extrapul := "Missing", tb_prior_Unknown := "Missing",
        hemoptysis := "No", weight_loss := "Missing", smoke_lweek := "Missing",
        fever := "No", night_sweats := "Missing" } 0 0 0 (fun _ _ => "") 40 rfl).1
      (Or.inl rfl),
   (generateSummaries_fallback
      { age := some 40, height := Option.none, weight := Option.none,
        reported_cough_dur := Option.none, heart_rate := Option.none,
        temperature := Option.none, n_recordings := 1, n_cough_windows_total := 1,
        sex := "Missing", tb_prior := "No", tb_prior_Pul := "Missing",
        tb_prior_Extrapul := "Missing", tb_prior_Unknown := "Missing",
        hemoptysis := "No", weight_loss := "Missing", smoke_lweek := "Missing",
        fever := "No", night_sweats := "Missing" } 0 0 0
      (fun _ _ => "<final>All good. Risk explained.</final>") 40 rfl).2.1
      (Or.inr (Or.inl rfl))⟩

/-- Claim C7: if, after a successful claim (with matching target version
and a truthy snapshot), no audio reference of the record resolves to a
downloadable location, the handler records the outcome via `write_failure`
— FAILED with the descriptive no-downloadable-audio message, truncated to
2000 characters — writes no success payload (hence none of the risk-score,
risk-level or summary fields), and surfaces the request as an HTTP 500
failure. -/
theorem inferHandler_no_audio_failure (cfg : Settings) (req : InferRequest)
    (d : Doc) (now : PyVal) (dl : AudioLocation → Bool) (names : List String)
    (pipeline : Doc → List String → Except String SuccessPayload)
    (hver : req.target_model_version = cfg.target_model_version)
    (hclaim : (markProcessingIfNeeded (some d) req.target_model_version now).1.1 =
      "PROCESSING_CLAIMED")
    (hne : d ≠ [])
    (hnoaudio : collectAudioLocations cfg.storage_bucket d = []) :
    (inferHandler cfg req (some d) now dl names pipeline).writes =
      [WriteEvent.failure cfg.model_version
        (strTake "No downloadable audio found in patient audio metadata" 2000)] ∧
    strTake "No downloadable audio found in patient audio metadata" 2000 =
      "No downloadable audio found in patient audio metadata" ∧
    (inferHandler cfg req (some d) now dl names pipeline).response =
      Except.error (500, "inference failed") ∧
    (∀ p, WriteEvent.success p ∉ (inferHandler cfg req (some d) now dl names pipeline).writes) := by
  have hd' : d.isEmpty = false := by
    cases d with
    | nil => exact absurd rfl hne
    | cons x xs => rfl
  have hmark : markProcessingIfNeeded (some d) req.target_model_version now =
      (("PROCESSING_CLAIMED", some d), some (claimUpdate d req.target_model_version now)) := by
    unfold markProcessingIfNeeded at hclaim ⊢
    dsimp only at hclaim ⊢
    split_ifs at hclaim ⊢ <;> simp_all
  have hout : inferHandler cfg req (some d) now dl names pipeline =
      { response := Except.error (500, "inference failed"),
        writes := [writeFailureEvent cfg.model_version
          "No downloadable audio found in patient audio metadata"],
        created := [], leaked := [] } := by
    unfold inferHandler
    rw [hmark]
    simp [hver, hd', hnoaudio, downloadAudioFiles, downloadFilesGo]
  rw [hout]
  refine ⟨rfl, by decide, rfl, ?_⟩
  intro p hp
  simp [writeFailureEvent] at hp

/-- Witness for C7: a claimed record with no audio entries is recorded as
FAILED with the no-downloadable-audio message and surfaced as HTTP 500. -/
theorem inferHandler_no_audio_failure_witness :
    (inferHandler ⟨"m1", "t1", "bucket"⟩ ⟨"p1", "t1"⟩ (some [("name", PyVal.str "x")])
        (PyVal.int 0) (fun _ => true) [] (fun _ _ => Except.error "unused")).writes =
      [WriteEvent.failure "m1"
        (strTake "No downloadable audio found in patient audio metadata" 2000)] ∧
    strTake "No downloadable audio found in patient audio metadata" 2000 =
      "No downloadable audio found in patient audio metadata" ∧
    (inferHandler ⟨"m1", "t1", "bucket"⟩ ⟨"p1", "t1"⟩ (some [("name", PyVal.str "x")])
        (PyVal.int 0) (fun _ => true) [] (fun _ _ => Except.error "unused")).response =
      Except.error (500, "inference failed") := by
  have h := inferHandler_no_audio_failure ⟨"m1", "t1", "bucket"⟩ ⟨"p1", "t1"⟩
    [("name", PyVal.str "x")] (PyVal.int 0) (fun _ => true) []
    (fun _ _ => Except.error "unused") rfl rfl
    (fun hh => List.noConfusion hh) rfl
  exact ⟨h.1, h.2.1, h.2.2.1⟩

/-- Counterexample to C8: when the second of two audio downloads raises,
`download_audio_files` has already created two temp files via `mkstemp`,
but the handler variable `tmp_paths` was never assigned, so the `finally`
cleanup removes nothing: both materialized temp files remain on disk. -/
theorem inferHandler_partial_download_leak_counterexample :
    (inferHandler ⟨"m1", "t1", "bucket"⟩ ⟨"p1", "t1"⟩
        (some [("audio", PyVal.list
          [PyVal.dict [("storage_uri", PyVal.str "gs://b/a.wav")],
           PyVal.dict [("storage_uri", PyVal.str "gs://b/bad.wav")]])])
        (PyVal.int 0) (fun loc => loc.blob_path == "a.wav")
        ["/tmp/t1.wav", "/tmp/t2.wav", "/tmp/t3.wav"]
        (fun _ _ => Except.error "unused")).created =
      ["/tmp/t1.wav", "/tmp/t2.wav"] ∧
    (inferHandler ⟨"m1", "t1", "bucket"⟩ ⟨"p1", "t1"⟩
        (some [("audio", PyVal.list
          [PyVal.dict [("storage_uri", PyVal.str "gs://b/a.wav")],
           PyVal.dict [("storage_uri", PyVal.str "gs://b/bad.wav")]])])
        (PyVal.int 0) (fun loc => loc.blob_path == "a.wav")
        ["/tmp/t1.wav", "/tmp/t2.wav", "/tmp/t3.wav"]
        (fun _ _ => Except.error "unused")).leaked =
      ["/tmp/t1.wav", "/tmp/t2.wav"] ∧
    (inferHandler ⟨"m1", "t1", "bucket"⟩ ⟨"p1", "t1"⟩
        (some [("audio", PyVal.list
          [PyVal.dict [("storage_uri", PyVal.str "gs://b/a.wav")],
           PyVal.dict [("storage_uri", PyVal.str "gs://b/bad.wav")]])])
        (PyVal.int 0) (fun loc => loc.blob_path == "a.wav")
        ["/tmp/t1.wav", "/tmp/t2.wav", "/tmp/t3.wav"]
        (fun _ _ => Except.error "unused")).leaked ≠ [] := by
  refine ⟨by decide, by decide, by decide⟩

theorem downloadFilesGo_all_ok (dl : AudioLocation → Bool) (hdl : ∀ loc, dl loc = true) :
    ∀ (locs : List AudioLocation) (names created : List String),
      ∃ c, downloadFilesGo dl names created locs = (c, Except.ok c) := by
  intro locs
  induction locs with
  | nil => intro names created; exact ⟨created, rfl⟩
  | cons loc rest ih =>
    intro names created
    unfold downloadFilesGo
    rw [hdl loc]
    simp only [if_true]
    exact ih names.tail (created ++ [names.headD "/tmp/airway.wav"])

theorem filter_not_contains_self (l : List String) :
    l.filter (fun f => !(l.contains f)) = [] := by
  rw [List.filter_eq_nil_iff]
  intro a ha
  simp only [List.contains, List.elem_iff.mpr ha, Bool.not_true]
  exact fun h => Bool.noConfusion h

/-- Claim C8, amended: whenever every blob download succeeds (so
`download_audio_files` returns its path list), every temp file materialized
for the request is removed on every exit path of the handler — success,
recorded failure (no audio, pipeline error) or skip; a download that itself
raises partway, however, leaks the temp files created before the failure
(see the counterexample). -/
theorem inferHandler_cleanup_when_downloads_ok (cfg : Settings) (req : InferRequest)
    (store : Option Doc) (now : PyVal) (dl : AudioLocation → Bool) (names : List String)
    (pipeline : Doc → List String → Except String SuccessPayload)
    (hdl : ∀ loc, dl loc = true) :
    (inferHandler cfg req store now dl names pipeline).leaked = [] := by
  unfold inferHandler
  dsimp only
  split_ifs <;> try rfl
  all_goals {
    split
    · rfl
    · next pd _ =>
      obtain ⟨c, hc⟩ := downloadFilesGo_all_ok dl hdl
        (collectAudioLocations cfg.storage_bucket pd) names []
      simp only [downloadAudioFiles, hc]
      split_ifs <;> [skip; split] <;> simp [filter_not_contains_self]
  }

/-- Witness for the amended C8: with all downloads succeeding and the
pipeline failing, the created temp file is still cleaned up. -/
theorem inferHandler_cleanup_when_downloads_ok_witness :
    (inferHandler ⟨"m1", "t1", "bucket"⟩ ⟨"p1", "t1"⟩
        (some [("audio", PyVal.list
          [PyVal.dict [("storage_uri", PyVal.str "gs://b/a.wav")]])])
        (PyVal.int 0) (fun _ => true) ["/tmp/t1.wav"]
        (fun _ _ => Except.error "pipeline boom")).leaked = [] :=
  inferHandler_cleanup_when_downloads_ok ⟨"m1", "t1", "bucket"⟩ ⟨"p1", "t1"⟩
    (some [("audio", PyVal.list
      [PyVal.dict [("storage_uri", PyVal.str "gs://b/a.wav")]])])
    (PyVal.int 0) (fun _ => true) ["/tmp/t1.wav"]
    (fun _ _ => Except.error "pipeline boom") (fun _ => rfl)
